import Mathlib

/-!
Verification of the nedap-ons-uptime monitoring service.

The definitions below are a shallow embedding of the Python sources:

* `nedap_ons_uptime/monitoring.py` — prober (`probe_target`), check recording
  (`check_target`), due-target scan (`load_due_targets`), scheduler fan-out
  (`run_checks`);
* `nedap_ons_uptime/db/models.py` — `ErrorType`, `Target`, `Check`;
* `nedap_ons_uptime/app.py` — retention GC (`cleanup_old_checks`);
* `nedap_ons_uptime/api/routes.py` — uptime aggregation (`get_target_uptime`),
  daily breakdown (`get_target_daily_uptime`), login (`auth_login`);
* `nedap_ons_uptime/auth.py` — `verify_credentials`, `mask_url`.

Machine integers are modelled as `Int`/`Nat`, timestamps as integer seconds
(naive UTC, as in the source's `datetime.utcnow()`), percentages as `ℚ`,
and Python strings as Lean `String`s (lists of characters).
-/

namespace NedapOnsUptime

/-! ## db/models.py — `ErrorType` -/

/-- `ErrorType` enum from `db/models.py`: normalized error categories. -/
inductive ErrorType
  | dns
  | connect
  | tls
  | timeout
  | http
  | unknown
deriving DecidableEq, Repr

/-! ## Exception classes reachable inside `probe_target`'s `try` block

`probe_target` dispatches on the dynamic class of a raised exception via its
chain of `except` clauses.  We model the classes named by those clauses
together with the relevant concrete subclasses that the HTTP client
(`httpx`) and the standard library can raise, and the Python subclass
relation between them. -/

/-- Exception classes relevant to `probe_target`'s `except` chain. -/
inductive ExcClass
  | sslCertVerificationError  -- ssl.SSLCertVerificationError
  | sslError                  -- ssl.SSLError
  | connectTimeout            -- httpx.ConnectTimeout
  | readTimeout               -- httpx.ReadTimeout
  | timeoutException          -- httpx.TimeoutException
  | connectError              -- httpx.ConnectError (DNS failures surface here)
  | readError                 -- httpx.ReadError
  | tooManyRedirects          -- httpx.TooManyRedirects
  | httpError                 -- httpx.HTTPError
  | valueError                -- ValueError (raised for a URL without hostname)
  | runtimeError              -- any other Exception subclass
deriving DecidableEq, Repr

/-- The ancestors of each class among the modelled classes, reflecting the
Python class hierarchy (`SSLCertVerificationError <: SSLError`;
`ConnectTimeout/ReadTimeout <: TimeoutException <: ... <: HTTPError`;
`ConnectError/ReadError <: ... <: HTTPError`; `TooManyRedirects <: HTTPError`). -/
def superclasses : ExcClass → List ExcClass
  | .sslCertVerificationError => [.sslCertVerificationError, .sslError]
  | .sslError => [.sslError]
  | .connectTimeout => [.connectTimeout, .timeoutException, .httpError]
  | .readTimeout => [.readTimeout, .timeoutException, .httpError]
  | .timeoutException => [.timeoutException, .httpError]
  | .connectError => [.connectError, .httpError]
  | .readError => [.readError, .httpError]
  | .tooManyRedirects => [.tooManyRedirects, .httpError]
  | .httpError => [.httpError]
  | .valueError => [.valueError]
  | .runtimeError => [.runtimeError]

/-- Python `isinstance(e, parent)` for the modelled classes. -/
def isInstanceOf (e parent : ExcClass) : Bool :=
  (superclasses e).contains parent

/-! ## monitoring.py — `probe_target` -/

/-- Python string slicing `s[:n]`. -/
def strTake (s : String) (n : Nat) : String :=
  String.mk (s.data.take n)

/-- What the single `await client.get(url)` call does: either a response
(with the final, redirect-followed status code) comes back, or an exception
of some class with some message is raised.  URL parsing failures are folded
in as `raises .valueError` by `probe_target` below. -/
inductive FetchOutcome
  | response (status : Nat)
  | raises (cls : ExcClass) (msg : String)
deriving DecidableEq, Repr

/-- The tuple returned by `probe_target`:
`(up, latency_ms, http_status, error_type, error_message)`. -/
structure ProbeResult where
  up : Bool
  latency_ms : Option Int
  http_status : Option Nat
  error_type : ErrorType
  error_message : Option String
deriving DecidableEq, Repr

/-- `httpx.Response.is_success`: `200 <= status_code <= 299`. -/
def is_success (status : Nat) : Bool :=
  decide (200 ≤ status) && decide (status ≤ 299)

/-- The `except` chain of `probe_target` (monitoring.py lines 48–67), applied
first-match to the class of the raised exception:
`SSLCertVerificationError`/`SSLError` → tls, `ConnectTimeout`/
`TimeoutException` → timeout, `ConnectError` → connect, `HTTPError` → http,
`Exception` → unknown (the initial value of `error_type` is kept). -/
def classify_exception (cls : ExcClass) : ErrorType :=
  if isInstanceOf cls .sslCertVerificationError then .tls
  else if isInstanceOf cls .sslError then .tls
  else if isInstanceOf cls .connectTimeout then .timeout
  else if isInstanceOf cls .timeoutException then .timeout
  else if isInstanceOf cls .connectError then .connect
  else if isInstanceOf cls .httpError then .http
  else .unknown

/-- `probe_target(url, timeout_s, verify_tls)` from monitoring.py.

The URL is abstracted to whether `urllib.parse.urlparse(url).hostname` is
set (`hasHost`), the network exchange to a `FetchOutcome`, and the elapsed
monotonic time to `elapsed_ms`.  A URL without hostname raises
`ValueError("Invalid URL: no hostname")`, which flows through the same
`except` chain as client exceptions.  The function always returns a tuple;
no exception escapes (the final `except Exception` clause). -/
def probe_target (hasHost : Bool) (fetch : FetchOutcome) (elapsed_ms : Int) :
    ProbeResult :=
  let outcome := if hasHost then fetch
    else FetchOutcome.raises .valueError "Invalid URL: no hostname"
  match outcome with
  | .response s =>
      if is_success s then
        { up := true, latency_ms := some elapsed_ms, http_status := some s,
          error_type := .unknown, error_message := none }
      else
        { up := false, latency_ms := some elapsed_ms, http_status := some s,
          error_type := .http,
          error_message := some ("HTTP " ++ toString s) }
  | .raises cls msg =>
      { up := false, latency_ms := some elapsed_ms, http_status := none,
        error_type := classify_exception cls,
        error_message := some (strTake msg 500) }

/-! ## db/models.py — `Check`; monitoring.py — `check_target` -/

/-- A row of the `checks` table (fields relevant to the claims). -/
structure Check where
  target_id : Nat
  checked_at : Int
  up : Bool
  latency_ms : Option Int
  http_status : Option Nat
  error_type : ErrorType
  error_message : Option String
deriving DecidableEq, Repr

/-- `check_target` (monitoring.py lines 73–87): records the probe result
verbatim as a `Check` row. -/
def check_target (target_id : Nat) (checked_at : Int) (r : ProbeResult) :
    Check :=
  { target_id := target_id, checked_at := checked_at, up := r.up,
    latency_ms := r.latency_ms, http_status := r.http_status,
    error_type := r.error_type, error_message := r.error_message }

/-! ## Claim-side classifier (for C5's first-match order) -/

/-- Classification in the order stated by the specification: a first match
among tls, timeout, connect, http, falling back to unknown.  This is the
spec's wording, to be compared with `classify_exception` (the code's
`except` chain). -/
def classify_spec_order (cls : ExcClass) : ErrorType :=
  if isInstanceOf cls .sslError then .tls
  else if isInstanceOf cls .timeoutException then .timeout
  else if isInstanceOf cls .connectError then .connect
  else if isInstanceOf cls .httpError then .http
  else .unknown

/-! ## db/models.py — `Target`; the database state -/

/-- A row of the `targets` table (fields relevant to the claims). -/
structure Target where
  id : Nat
  name : String
  url : String
  enabled : Bool
  interval_s : Int
  timeout_s : Int
  verify_tls : Bool
deriving DecidableEq, Repr

/-- The visible database state: the `targets` and `checks` tables. -/
structure DB where
  targets : List Target
  checks : List Check
deriving DecidableEq, Repr

/-- The checks recorded for a given target. -/
def checksFor (db : DB) (tid : Nat) : List Check :=
  db.checks.filter (fun c => c.target_id == tid)

/-- The grouped `max(checked_at)` subquery of `load_due_targets`
(monitoring.py lines 97–101): the latest `checked_at` among the target's
checks, or `none` when the target has never been checked. -/
def last_checked (db : DB) (tid : Nat) : Option Int :=
  ((checksFor db tid).map (fun c => c.checked_at)).max?

/-! ## monitoring.py — `load_due_targets` -/

/-- `load_due_targets` (monitoring.py lines 95–119): enabled targets joined
with their last check time; a target is kept when it has no previous check
or when `now - last_checked ≥ interval_s`. -/
def load_due_targets (db : DB) (now : Int) : List Target :=
  (db.targets.filter (fun t => t.enabled)).filter (fun t =>
    match last_checked db t.id with
    | none => true
    | some lc => decide (now - lc ≥ t.interval_s))

/-! ## monitoring.py — `run_checks` exception flow

`run_checks` fans out one task per due target.  Each task runs

```
async with db.session() as session:      -- commits at context exit
    try:
        await check_target(session, target)
    except Exception:
        logger.exception("Failed to check target", ...)
```

and the tasks are awaited with `asyncio.gather(...)` (default
`return_exceptions=False`, so a task's exception propagates to the
awaiter).  We model each task by which of its two steps raises: the
`check_target` call inside the `try`, and the `session.commit()` issued by
`Database.session`'s context exit (db/session.py lines 32–41) — the latter
runs *outside* the inner `try`. -/

/-- Which steps of one per-target task raise. -/
structure TargetTaskBehavior where
  check_raises : Bool
  commit_raises : Bool
deriving DecidableEq, Repr

/-- The observable outcome of one completed per-target task: whether the
exception handler logged a failure. -/
structure TaskResult where
  logged : Bool
deriving DecidableEq, Repr

/-- One per-target task (`check_with_semaphore`, monitoring.py lines
132–139): an exception from `check_target` is absorbed and logged by the
inner `try`; an exception from the session commit at context exit is
rolled back and re-raised, escaping the task. -/
def check_with_semaphore (b : TargetTaskBehavior) : Except String TaskResult :=
  let logged := b.check_raises
  if b.commit_raises then Except.error "commit failed"
  else Except.ok { logged := logged }

/-- `run_checks` over the due targets (monitoring.py lines 122–141):
`asyncio.gather` with `return_exceptions=False` re-raises the exception of
any failed task to `run_checks`'s caller (the worker loop, which has no
handler); only when every task completes normally does `run_checks` return. -/
def run_checks (behaviors : List TargetTaskBehavior) :
    Except String (List TaskResult) :=
  let results := behaviors.map check_with_semaphore
  match results.find? (fun r => !r.isOk) with
  | some (Except.error e) => Except.error e
  | _ => Except.ok (results.filterMap Except.toOption)

/-! ## api/routes.py — `get_target_uptime` -/

/-- The aggregated uptime payload built by `get_target_uptime`. -/
structure UptimeStats where
  uptime_percentage : ℚ
  total_checks : Nat
  up_checks : Nat
  down_checks : Int
deriving DecidableEq, Repr

/-- `get_target_uptime` (routes.py lines 358–390) for an existing target:
count and up-count over the target's checks with `checked_at ≥ cutoff`
(`cutoff = now - days`), `uptime_percentage = up/total*100` when
`total > 0` else `0`, `down = total - up`. -/
def get_target_uptime (db : DB) (tid : Nat) (cutoff : Int) : UptimeStats :=
  let window := db.checks.filter (fun c =>
    c.target_id == tid && decide (cutoff ≤ c.checked_at))
  let total_checks := window.length
  let up_checks := (window.filter (fun c => c.up)).length
  let down_checks := (total_checks : Int) - (up_checks : Int)
  let uptime_percentage : ℚ :=
    if 0 < total_checks then (up_checks : ℚ) / (total_checks : ℚ) * 100 else 0
  { uptime_percentage := uptime_percentage, total_checks := total_checks,
    up_checks := up_checks, down_checks := down_checks }

/-! ## api/routes.py — `get_target_daily_uptime` -/

/-- The UTC calendar day of a timestamp (the `strftime("%Y-%m-%d")` bucket
key, represented as days since the epoch). -/
def epochDay (t : Int) : Int := Int.fdiv t 86400

/-- Python `round` ties-to-even to an integer. -/
def roundHalfEven (q : ℚ) : ℤ :=
  if Int.fract q < 1 / 2 then ⌊q⌋
  else if 1 / 2 < Int.fract q then ⌊q⌋ + 1
  else if ⌊q⌋ % 2 = 0 then ⌊q⌋ else ⌊q⌋ + 1

/-- Python `round(x, 2)`. -/
def round2 (q : ℚ) : ℚ := (roundHalfEven (q * 100) : ℚ) / 100

/-- One entry of the daily-uptime response; `date` is the UTC calendar day
of the `"%Y-%m-%d"` key. -/
structure DailyEntry where
  date : Int
  uptime_percentage : ℚ
  total_checks : Nat
  up_checks : Nat
  down_checks : Int
deriving DecidableEq, Repr

instance : Inhabited DailyEntry :=
  ⟨{ date := 0, uptime_percentage := 0, total_checks := 0, up_checks := 0,
     down_checks := 0 }⟩

/-- The response entry built for one calendar day (routes.py lines
441–455): the day's bucket among the fetched checks (a missing day gives
`total = 0, up = 0`), `uptime_pct = up/total*100` when `total > 0` else
`100.0`, rounded to two decimals. -/
def dailyEntryFor (window : List Check) (day : Int) : DailyEntry :=
  let bucket := window.filter (fun c => epochDay c.checked_at == day)
  let total := bucket.length
  let up := (bucket.filter (fun c => c.up)).length
  let uptime_pct : ℚ :=
    if 0 < total then (up : ℚ) / (total : ℚ) * 100 else 100
  { date := day, uptime_percentage := round2 uptime_pct,
    total_checks := total, up_checks := up,
    down_checks := (total : Int) - (up : Int) }

/-- `get_target_daily_uptime` (routes.py lines 403–457) for an existing
target: fetch the target's checks with `checked_at ≥ now - days`, group
them by UTC calendar day, then iterate `i = days-1, …, 0` (oldest day
first), emitting one entry per day. -/
def get_target_daily_uptime (db : DB) (tid : Nat) (days : Nat) (now : Int) :
    List DailyEntry :=
  let cutoff := now - (days : Int) * 86400
  let window := db.checks.filter (fun c =>
    c.target_id == tid && decide (cutoff ≤ c.checked_at))
  (List.range days).reverse.map (fun (i : Nat) =>
    dailyEntryFor window (epochDay (now - (i : Int) * 86400)))

/-! ## app.py — retention GC -/

/-- One iteration of the retention task (`cleanup_old_checks`, app.py lines
58–62): `DELETE FROM checks WHERE checked_at < now - retention_days`;
targets are untouched. -/
def cleanup_old_checks (db : DB) (now : Int) (retention_days : Int) : DB :=
  let cutoff := now - retention_days * 86400
  { db with checks := db.checks.filter (fun c => !decide (c.checked_at < cutoff)) }

/-! ## config.py / auth.py — credentials and login -/

/-- The settings fields consulted by the auth layer. -/
structure Settings where
  auth_enabled : Bool
  auth_username : String
  auth_password : String
deriving DecidableEq, Repr

/-- `hmac.compare_digest` on strings: a timing-safe equality test whose
result is equality of the two strings. -/
def compare_digest (a b : String) : Bool := a == b

/-- `verify_credentials` (auth.py lines 28–37). -/
def verify_credentials (username password : String) (s : Settings) : Bool :=
  compare_digest username s.auth_username &&
    compare_digest password s.auth_password

/-- What `auth_login` produces: the HTTP status, the response payload, the
session flag after the request, and whether `verify_credentials` was
consulted at all. -/
structure LoginResult where
  status_code : Nat
  authenticated : Bool
  auth_enabled : Bool
  session_authenticated : Bool
  verify_consulted : Bool
deriving DecidableEq, Repr

/-- `auth_login` (routes.py lines 185–197): with auth disabled it returns
immediately; otherwise wrong credentials raise a 401 and correct ones mark
the session. `session_before` is the session's `authenticated` flag before
the request. -/
def auth_login (s : Settings) (username password : String)
    (session_before : Bool) : LoginResult :=
  if !s.auth_enabled then
    { status_code := 200, authenticated := true, auth_enabled := false,
      session_authenticated := session_before, verify_consulted := false }
  else if !verify_credentials username password s then
    { status_code := 401, authenticated := false, auth_enabled := true,
      session_authenticated := session_before, verify_consulted := true }
  else
    { status_code := 200, authenticated := true, auth_enabled := true,
      session_authenticated := true, verify_consulted := true }

/-! ## auth.py — `mask_url`

`mask_url` splits the URL with `urllib.parse.urlsplit`, masks the
components, and reassembles with `urllib.parse.urlunsplit`.  We embed it on
the split components (`SplitResult`), with `urlunsplit` modelled from
CPython's `urllib/parse.py`. -/

/-- `urllib.parse.SplitResult`: the five URL components. -/
structure SplitResult where
  scheme : String
  netloc : String
  path : String
  query : String
  fragment : String
deriving DecidableEq, Repr

/-- CPython's `urllib.parse.uses_netloc`. -/
def uses_netloc : List String :=
  ["", "ftp", "http", "gopher", "nntp", "telnet", "imap", "wais", "file",
   "mms", "https", "shttp", "snews", "prospero", "rtsp", "rtsps", "rtspu",
   "rsync", "svn", "svn+ssh", "sftp", "nfs", "git", "git+ssh", "ws", "wss"]

/-- CPython's `urllib.parse.urlunsplit`. -/
def urlunsplit (c : SplitResult) : String :=
  let url := c.path
  let url :=
    if c.netloc ≠ "" ∨ (c.scheme ≠ "" ∧ c.scheme ∈ uses_netloc ∧
        strTake url 2 ≠ "//") then
      let url := if url ≠ "" ∧ strTake url 1 ≠ "/" then "/" ++ url else url
      "//" ++ c.netloc ++ url
    else url
  let url := if c.scheme ≠ "" then c.scheme ++ ":" ++ url else url
  let url := if c.query ≠ "" then url ++ "?" ++ c.query else url
  if c.fragment ≠ "" then url ++ "#" ++ c.fragment else url

/-- `mask_url` (auth.py lines 64–74), on the already-split URL: keeps the
scheme, replaces the netloc by its first character followed by `***` (or
`*` when the netloc is a single character), replaces the path by `/***`,
and drops query and fragment; a URL with no netloc masks to `***`. -/
def mask_url (parsed : SplitResult) : String :=
  let host := parsed.netloc
  if host = "" then "***"
  else
    let masked_host :=
      if 1 < host.length then strTake host 1 ++ "***" else "*"
    urlunsplit
      { parsed with
        netloc := masked_host
        path := "/***"
        query := ""
        fragment := "" }

/-! ## Concrete example inputs used by the witnesses -/

/-- A successful check (HTTP 200) at time 10 for target 1. -/
def exampleUpCheck : Check :=
  { target_id := 1, checked_at := 10, up := true, latency_ms := some 12,
    http_status := some 200, error_type := .unknown, error_message := none }

/-- A failed check (HTTP 500) at time 10 for target 1. -/
def exampleDownCheck : Check :=
  { target_id := 1, checked_at := 10, up := false, latency_ms := some 12,
    http_status := some 500, error_type := .http,
    error_message := some "HTTP 500" }

/-- A database holding 100 checks for target 1, 75 of them up. -/
def C6_example_db : DB :=
  { targets := [],
    checks := List.replicate 75 exampleUpCheck ++
      List.replicate 25 exampleDownCheck }

/-- A database with no checks at all. -/
def C7_example_db : DB := { targets := [], checks := [] }

/-- The daily entry reported for a day with zero checks. -/
def emptyDayEntry (d : Int) : DailyEntry :=
  { date := d, uptime_percentage := 100, total_checks := 0, up_checks := 0,
    down_checks := 0 }

/-- Settings with authentication disabled. -/
def C10_example_settings : Settings :=
  { auth_enabled := false, auth_username := "admin",
    auth_password := "change-me" }

/-! ## Helper lemmas -/

/-- Python slicing `s[:n]` yields at most `n` characters. -/
theorem strTake_length_le (s : String) (n : Nat) : (strTake s n).length ≤ n := by
  show (s.data.take n).length ≤ n
  simp [List.length_take]

/-- `is_success` decides membership of the status in `[200, 299]`. -/
theorem is_success_iff (s : Nat) : is_success s = true ↔ 200 ≤ s ∧ s ≤ 299 := by
  simp [is_success]

/-! ## Claim theorems -/

/-- C1: for every probe in which an HTTP response is received,
`probe_target` returns `up = true` exactly when the final
(redirect-followed) status is in `[200, 299]`, in which case
`error_kind = unknown` and `error_message = null`; when the final status is
outside `[200, 299]` it returns `up = false`, `error_kind = http` and
`error_message = "HTTP <status>"`. -/
theorem C1_probe_response_classification (s : Nat) (elapsed : Int) :
    ((probe_target true (FetchOutcome.response s) elapsed).up = true ↔
      200 ≤ s ∧ s ≤ 299) ∧
    (probe_target true (FetchOutcome.response s) elapsed).error_type =
      (if 200 ≤ s ∧ s ≤ 299 then ErrorType.unknown else ErrorType.http) ∧
    (probe_target true (FetchOutcome.response s) elapsed).error_message =
      (if 200 ≤ s ∧ s ≤ 299 then none else some ("HTTP " ++ toString s)) := by
  by_cases h : 200 ≤ s ∧ s ≤ 299
  · have hb : is_success s = true := (is_success_iff s).mpr h
    simp [probe_target, hb, h]
  · have hb : is_success s = false := by
      cases hx : is_success s
      · rfl
      · exact absurd ((is_success_iff s).mp hx) h
    simp [probe_target, hb, h]

/-- C4: for every `Check` recorded by the probe/check pipeline, `up` is
true if and only if `http_status` is non-null and lies in `[200, 299]`. -/
theorem C4_up_iff_2xx_status (hasHost : Bool) (fetch : FetchOutcome)
    (elapsed : Int) (tid : Nat) (t : Int) :
    (check_target tid t (probe_target hasHost fetch elapsed)).up = true ↔
      ∃ s, (check_target tid t (probe_target hasHost fetch elapsed)).http_status
          = some s ∧ 200 ≤ s ∧ s ≤ 299 := by
  cases hasHost
  · simp [check_target, probe_target]
  · cases fetch with
    | response s =>
        by_cases h : 200 ≤ s ∧ s ≤ 299
        · have hb : is_success s = true := (is_success_iff s).mpr h
          simp [check_target, probe_target, hb, h]
        · have hb : is_success s = false := by
            cases hx : is_success s
            · rfl
            · exact absurd ((is_success_iff s).mp hx) h
          simp [check_target, probe_target, hb]
          omega
    | raises cls msg => simp [check_target, probe_target]

/-- C5: `probe_target` is total — every exception raised by URL parsing or
the HTTP client is absorbed (the model's `FetchOutcome.raises` branch and
the hostless branch both return normally) — and every failure result has
`up = false` with an `error_kind` among
`{dns, connect, tls, timeout, http, unknown}`, classified first-match in
the order tls, timeout, connect, http, unknown
(`classify_exception`, the code's `except` chain, agrees with
`classify_spec_order`, the claim's order), with `error_message` truncated
to at most 500 characters. -/
theorem C5_probe_total_and_classified (hasHost : Bool) (cls : ExcClass)
    (msg : String) (elapsed : Int) (fetch : FetchOutcome) :
    (probe_target hasHost (FetchOutcome.raises cls msg) elapsed).up = false ∧
    (probe_target false fetch elapsed).up = false ∧
    (probe_target hasHost (FetchOutcome.raises cls msg) elapsed).error_type ∈
      [ErrorType.dns, ErrorType.connect, ErrorType.tls, ErrorType.timeout,
       ErrorType.http, ErrorType.unknown] ∧
    classify_exception cls = classify_spec_order cls ∧
    ((probe_target hasHost (FetchOutcome.raises cls msg)
        elapsed).error_message.getD "").length ≤ 500 := by
  refine ⟨?_, ?_, ?_, ?_, ?_⟩
  · cases hasHost <;> simp [probe_target]
  · cases fetch with
    | response s => simp [probe_target]
    | raises c m => simp [probe_target]
  · cases hasHost <;>
      cases hx : (probe_target _ (FetchOutcome.raises cls msg) elapsed).error_type <;>
      simp
  · cases cls <;> rfl
  · cases hasHost <;> simpa [probe_target] using strTake_length_le _ 500

/-- C2: `load_due_targets` returns exactly the targets that are enabled
and either never checked (`last_checked = none`) or whose last check is at
least `interval_s` seconds before `now`. -/
theorem C2_load_due_targets_mem (db : DB) (now : Int) (t : Target) :
    t ∈ load_due_targets db now ↔
      t ∈ db.targets ∧ t.enabled = true ∧
        (last_checked db t.id = none ∨
          ∃ lc, last_checked db t.id = some lc ∧ now - lc ≥ t.interval_s) := by
  unfold load_due_targets
  simp only [List.mem_filter, and_assoc]
  cases hlc : last_checked db t.id with
  | none => simp [hlc]
  | some lc => simp [hlc, ge_iff_le]

/-- C3: the claim says every exception raised while probing and persisting
one target's check — including a failure when the per-target session
commits — is caught inside that target's task and does not propagate out
of `run_checks`.  The code violates this: the `try/except` in
`check_with_semaphore` sits *inside* the `async with db.session()` block,
so an exception raised by `session.commit()` at the context exit is
re-raised, escapes the task, and `asyncio.gather` propagates it out of
`run_checks` (and through the unguarded `worker_loop`).  This theorem
evaluates the model at the failing input: a single due target whose
commit fails makes `run_checks` raise, while a `check_target` exception is
indeed absorbed and logged. -/
theorem C3_commit_failure_escapes_run_checks :
    run_checks [{ check_raises := false, commit_raises := true }] =
      Except.error "commit failed" ∧
    run_checks [{ check_raises := true, commit_raises := false },
                { check_raises := false, commit_raises := false }] =
      Except.ok [{ logged := true }, { logged := false }] :=
  ⟨rfl, rfl⟩

/-- C6: the rolling-uptime aggregation returns
`uptime_percentage = up_checks / total_checks * 100` when
`total_checks > 0` and `0` when `total_checks = 0`, with
`down_checks = total_checks - up_checks`. -/
theorem C6_uptime_formula (db : DB) (tid : Nat) (cutoff : Int) :
    (0 < (get_target_uptime db tid cutoff).total_checks →
      (get_target_uptime db tid cutoff).uptime_percentage =
        ((get_target_uptime db tid cutoff).up_checks : ℚ) /
          ((get_target_uptime db tid cutoff).total_checks : ℚ) * 100) ∧
    ((get_target_uptime db tid cutoff).total_checks = 0 →
      (get_target_uptime db tid cutoff).uptime_percentage = 0) ∧
    (get_target_uptime db tid cutoff).down_checks =
      ((get_target_uptime db tid cutoff).total_checks : Int) -
        ((get_target_uptime db tid cutoff).up_checks : Int) := by
  refine ⟨fun h => ?_, fun h => ?_, rfl⟩
  · simp only [get_target_uptime] at h ⊢
    rw [if_pos h]
  · simp only [get_target_uptime] at h ⊢
    rw [if_neg (by omega)]

/-- Witness for C6 at the spec's literal example: 100 checks for the
target, 75 of them up, give `uptime_percentage = 75`. -/
theorem C6_uptime_formula_witness :
    0 < (get_target_uptime C6_example_db 1 0).total_checks ∧
    (get_target_uptime C6_example_db 1 0).uptime_percentage =
      ((get_target_uptime C6_example_db 1 0).up_checks : ℚ) /
        ((get_target_uptime C6_example_db 1 0).total_checks : ℚ) * 100 ∧
    (get_target_uptime C6_example_db 1 0).uptime_percentage = 75 ∧
    (get_target_uptime C6_example_db 1 0).total_checks = 100 ∧
    (get_target_uptime C6_example_db 1 0).up_checks = 75 ∧
    (get_target_uptime C6_example_db 1 0).down_checks = 25 :=
  ⟨by decide, (C6_uptime_formula C6_example_db 1 0).1 (by decide),
    by norm_num [get_target_uptime, C6_example_db, exampleUpCheck,
      exampleDownCheck],
    by decide, by decide, by decide⟩

/-- Shifting a timestamp by whole days shifts its UTC calendar day. -/
theorem epochDay_sub_mul (t k : Int) :
    epochDay (t - k * 86400) = epochDay t - k := by
  unfold epochDay
  rw [Int.fdiv_eq_ediv _ (by norm_num), Int.fdiv_eq_ediv _ (by norm_num),
    sub_eq_add_neg, ← neg_mul, Int.add_mul_ediv_right _ _ (by norm_num)]
  ring

/-- The `date` field of a daily entry is the day it was built for. -/
theorem dailyEntryFor_date (w : List Check) (d : Int) :
    (dailyEntryFor w d).date = d := rfl

/-- The percentage of a daily entry, as a function of its own counts. -/
theorem dailyEntryFor_pct (w : List Check) (d : Int) :
    (dailyEntryFor w d).uptime_percentage =
      round2 (if 0 < (dailyEntryFor w d).total_checks then
        ((dailyEntryFor w d).up_checks : ℚ) /
          ((dailyEntryFor w d).total_checks : ℚ) * 100 else 100) := rfl

/-- Ties-to-even rounding is the identity on integers. -/
theorem roundHalfEven_intCast (n : ℤ) : roundHalfEven (n : ℚ) = n := by
  unfold roundHalfEven
  rw [Int.fract_intCast, Int.floor_intCast, if_pos (by norm_num)]

/-- `round(100.0, 2) = 100.0`. -/
theorem round2_hundred : round2 100 = 100 := by
  have h : ((100 : ℚ) * 100) = ((10000 : ℤ) : ℚ) := by norm_num
  rw [round2, h, roundHalfEven_intCast]
  norm_num

/-- C7: the daily-uptime breakdown returns exactly `days` entries, one per
UTC calendar day ordered oldest to newest (the entry at index `j` is for
day `epochDay now - (days - 1 - j)`); a day with zero checks reports
`uptime_percentage = 100.0`; every reported percentage is a two-decimal
rounding (an integer number of hundredths). -/
theorem C7_daily_breakdown (db : DB) (tid : Nat) (days : Nat) (now : Int) :
    (get_target_daily_uptime db tid days now).length = days ∧
    (∀ j, j < days →
      ((get_target_daily_uptime db tid days now).getD j default).date =
        epochDay now - ((days : Int) - 1 - (j : Int))) ∧
    (∀ e ∈ get_target_daily_uptime db tid days now,
      e.total_checks = 0 → e.uptime_percentage = 100) ∧
    (∀ e ∈ get_target_daily_uptime db tid days now,
      ∃ n : ℤ, e.uptime_percentage = (n : ℚ) / 100) := by
  have hlen : (get_target_daily_uptime db tid days now).length = days := by
    simp only [get_target_daily_uptime, List.length_map, List.length_reverse,
      List.length_range]
  refine ⟨hlen, fun j hj => ?_, fun e he h0 => ?_, fun e he => ?_⟩
  · rw [List.getD_eq_getElem _ _ (by rw [hlen]; exact hj)]
    unfold get_target_daily_uptime
    rw [List.getElem_map, List.getElem_reverse, List.getElem_range,
      dailyEntryFor_date, epochDay_sub_mul]
    simp only [List.length_range]
    omega
  · unfold get_target_daily_uptime at he
    rw [List.mem_map] at he
    obtain ⟨i, _, rfl⟩ := he
    rw [dailyEntryFor_pct, if_neg (by omega), round2_hundred]
  · unfold get_target_daily_uptime at he
    rw [List.mem_map] at he
    obtain ⟨i, _, rfl⟩ := he
    exact ⟨_, rfl⟩

/-- On an empty window every day reports the zero-check entry. -/
theorem dailyEntryFor_nil (d : Int) : dailyEntryFor [] d = emptyDayEntry d := by
  unfold dailyEntryFor emptyDayEntry
  simp [round2_hundred]

/-- Witness for C7: two requested days over an empty check table give an
entry for the previous UTC day at index 0, and a day with zero checks
reports `100.0`. -/
theorem C7_daily_breakdown_witness :
    0 < 2 ∧
    ((get_target_daily_uptime C7_example_db 1 2 864500).getD 0 default).date =
      epochDay 864500 - ((2 : Int) - 1 - ((0 : Nat) : Int)) ∧
    emptyDayEntry 9 ∈ get_target_daily_uptime C7_example_db 1 2 864500 ∧
    (emptyDayEntry 9).uptime_percentage = 100 := by
  have h9 : epochDay 778100 = 9 := by decide
  have h10 : epochDay 864500 = 10 := by decide
  have hlist : get_target_daily_uptime C7_example_db 1 2 864500 =
      [emptyDayEntry 9, emptyDayEntry 10] := by
    unfold get_target_daily_uptime C7_example_db
    simp [List.range_succ, dailyEntryFor_nil, h9, h10]
  have hmem : emptyDayEntry 9 ∈
      get_target_daily_uptime C7_example_db 1 2 864500 := by
    rw [hlist]
    exact List.mem_cons_self _ _
  exact ⟨by decide,
    (C7_daily_breakdown C7_example_db 1 2 864500).2.1 0 (by decide), hmem,
    (C7_daily_breakdown C7_example_db 1 2 864500).2.2.1 _ hmem (by decide)⟩

/-- Reassociating the scheme separator: `a ++ ":" ++ ("//" ++ b ++ c)` is
`a ++ "://" ++ b ++ c`. -/
theorem append_colon_slashes (a b c : String) :
    a ++ ":" ++ ("//" ++ b ++ c) = a ++ "://" ++ b ++ c := by
  apply String.ext
  simp only [String.data_append, List.append_assoc]
  rw [← List.append_assoc (":" : String).data]
  have hd : (":" : String).data ++ ("//" : String).data =
      ("://" : String).data := by decide
  rw [hd]

/-- `urlunsplit` on masked components: nonempty netloc and scheme, path
`/***`, no query, no fragment. -/
theorem urlunsplit_masked (sch mh : String) (hs : sch ≠ "") (hm : mh ≠ "") :
    urlunsplit ⟨sch, mh, "/***", "", ""⟩ =
      sch ++ ":" ++ ("//" ++ mh ++ "/***") := by
  simp only [urlunsplit]
  rw [if_neg (by decide), if_neg (by decide), if_pos hs, if_pos (Or.inl hm),
    if_neg (by decide)]

/-- C8 counterexample: the claim says the host is always replaced by its
first character followed by `***`, so URL `http://a` (scheme `http`, host
`a`, as split by `urlsplit`) would mask to `http://a***/***`; the code's
single-character branch yields `http://*/***` instead. -/
theorem C8_mask_url_counterexample :
    mask_url ⟨"http", "a", "", "", ""⟩ = "http://*/***" ∧
    ¬ mask_url ⟨"http", "a", "", "", ""⟩ = "http://a***/***" := by
  constructor <;> decide

/-- C8 amended: `mask_url` preserves the scheme, replaces the path by
`/***`, and drops query and fragment; the network-location component is
replaced by its first character followed by `***` when it has more than
one character, and by `*` when it is a single character; with no host it
returns the literal `***` (so host `example.com` with scheme `https`
masks to `https://e***/***`). -/
theorem C8_mask_url_amended (sch host path query frag : String)
    (hs : sch ≠ "") :
    (1 < host.length →
      mask_url ⟨sch, host, path, query, frag⟩ =
        sch ++ "://" ++ (strTake host 1 ++ "***") ++ "/***") ∧
    (host.length = 1 →
      mask_url ⟨sch, host, path, query, frag⟩ =
        sch ++ "://" ++ "*" ++ "/***") ∧
    (host = "" → mask_url ⟨sch, host, path, query, frag⟩ = "***") := by
  refine ⟨fun h1 => ?_, fun h1 => ?_, fun h1 => ?_⟩
  · have hne : ¬ host = "" := by
      intro h
      rw [h] at h1
      exact absurd h1 (by decide)
    have hmh : strTake host 1 ++ "***" ≠ "" := by
      intro h
      have hd := congrArg String.data h
      rw [String.data_append] at hd
      exact absurd (List.append_eq_nil.mp hd).2 (by decide)
    simp only [mask_url]
    rw [if_neg hne, if_pos h1, urlunsplit_masked sch _ hs hmh,
      append_colon_slashes]
  · have hne : ¬ host = "" := by
      intro h
      rw [h] at h1
      exact absurd h1 (by decide)
    have hlt : ¬ 1 < host.length := by omega
    simp only [mask_url]
    rw [if_neg hne, if_neg hlt, urlunsplit_masked sch _ hs (by decide),
      append_colon_slashes]
  · subst h1
    simp [mask_url]

/-- Witness for C8 amended at the spec's literal example: host
`example.com` with scheme `https` masks to `https://e***/***`. -/
theorem C8_mask_url_amended_witness :
    ("https" : String) ≠ "" ∧ 1 < ("example.com" : String).length ∧
    mask_url ⟨"https", "example.com", "/health", "", ""⟩ =
      "https" ++ "://" ++ (strTake "example.com" 1 ++ "***") ++ "/***" :=
  ⟨by decide, by decide,
    (C8_mask_url_amended "https" "example.com" "/health" "" ""
      (by decide)).1 (by decide)⟩

/-- C9: one retention-GC iteration deletes exactly the checks with
`checked_at < now - retention_days`, leaves all targets and all newer
checks unchanged, and is immediately idempotent: a second iteration at the
same instant leaves the state unchanged (deletes zero rows). -/
theorem C9_retention_gc (db : DB) (now : Int) (retention_days : Int)
    (c : Check) :
    (c ∈ (cleanup_old_checks db now retention_days).checks ↔
      c ∈ db.checks ∧ ¬ c.checked_at < now - retention_days * 86400) ∧
    (cleanup_old_checks db now retention_days).targets = db.targets ∧
    cleanup_old_checks (cleanup_old_checks db now retention_days) now
        retention_days =
      cleanup_old_checks db now retention_days := by
  refine ⟨?_, rfl, ?_⟩
  · simp [cleanup_old_checks, List.mem_filter]
  · simp [cleanup_old_checks, List.filter_filter]

/-- C10: with `auth_enabled = false`, `POST /api/auth/login` returns
`{authenticated: true, auth_enabled: false}` for every credential pair,
without consulting `verify_credentials` and without marking the session;
and `verify_credentials` returns true iff both the username and the
password equal the configured values. -/
theorem C10_login_auth_disabled (s : Settings) (username password : String)
    (session_before : Bool) (hs : s.auth_enabled = false) :
    auth_login s username password session_before =
      { status_code := 200, authenticated := true, auth_enabled := false,
        session_authenticated := session_before,
        verify_consulted := false } ∧
    (verify_credentials username password s = true ↔
      username = s.auth_username ∧ password = s.auth_password) := by
  constructor
  · simp [auth_login, hs]
  · simp [verify_credentials, compare_digest, Bool.and_eq_true]

/-- Witness for C10: with authentication disabled, an arbitrary credential
pair logs in as authenticated without touching the session. -/
theorem C10_login_auth_disabled_witness :
    C10_example_settings.auth_enabled = false ∧
    auth_login C10_example_settings "anyone" "anything" false =
      { status_code := 200, authenticated := true, auth_enabled := false,
        session_authenticated := false, verify_consulted := false } :=
  ⟨by decide,
    (C10_login_auth_disabled C10_example_settings "anyone" "anything" false
      (by decide)).1⟩

end NedapOnsUptime
